import Mathlib

/-!
Shallow embedding of the three demonstration scripts
(`vanila_example.py`, `langchain_example.py`, `deepagent_example.py`).

Python strings are modelled as `List Char`; each `print(...)` call is
modelled as appending its argument (the payload, without the trailing
newline that `print` adds) to an output list, so a formatter becomes a
pure function from the response data to `List (List Char)`.
-/

/-- Python `str(n)` for a natural number. -/
def natStr (n : Nat) : List Char := (Nat.repr n).toList

/-- The 60-character `'=' * 60` banner used by every script. -/
def banner : List Char := List.replicate 60 '='

/-- The three label-banner prints that open every formatter:
`print(f"\n{banner}")`, `print(f"  {label}")`, `print(f"{banner}")`. -/
def headerLines (label : List Char) : List (List Char) :=
  ["\n".toList ++ banner, "  ".toList ++ label, banner]

namespace Config

/-- Python `pat in s` (substring containment) on character lists. -/
def containsSub (pat : List Char) : List Char → Bool
  | [] => pat.isEmpty
  | c :: rest => pat.isPrefixOf (c :: rest) || containsSub pat rest

/-- The part of `s` before the first occurrence of `pat`, i.e. Python
`s.split(pat)[0]`; when `pat` does not occur this is `s` itself. -/
def prefixBefore (pat : List Char) : List Char → List Char
  | [] => []
  | c :: rest => if pat.isPrefixOf (c :: rest) then [] else c :: prefixBefore pat rest

/-- Python `s.rstrip(ch)`: remove every trailing occurrence of `ch`. -/
def rstrip (ch : Char) (s : List Char) : List Char :=
  (s.reverse.dropWhile (fun c => c = ch)).reverse

/-- The project-scope path marker checked by all three scripts. -/
def marker : List Char := "/api/projects/".toList

/-- `resource_endpoint` from the scripts: strip the project path if present. -/
def resource_endpoint (endpoint : List Char) : List Char :=
  if containsSub marker endpoint then prefixBefore marker endpoint else endpoint

/-- `base_url` from the scripts:
`f"{resource_endpoint.rstrip('/')}/openai/v1/"`. -/
def base_url (endpoint : List Char) : List Char :=
  rstrip '/' (resource_endpoint endpoint) ++ "/openai/v1/".toList

/-- Index of the first occurrence of `pat` in `s`, if any. -/
def markerIdx (pat : List Char) : List Char → Option Nat
  | [] => if pat.isEmpty then some 0 else none
  | c :: rest =>
      if pat.isPrefixOf (c :: rest) then some 0
      else (markerIdx pat rest).map (fun n => n + 1)

/-- Written from the spec sentence: when the endpoint contains the
project-scope marker, truncate the string at that marker (keep only the
prefix up to the first occurrence), strip any trailing slash, and append
the fixed versioned suffix `/openai/v1/`. -/
def specNormalize (endpoint : List Char) : Option (List Char) :=
  (markerIdx marker endpoint).map
    (fun i => rstrip '/' (endpoint.take i) ++ "/openai/v1/".toList)

/-- Python truthiness of an `os.getenv(...)` result: `none` models an
unset variable, `some []` a variable set to the empty string; both are
falsy. -/
def truthy : Option (List Char) → Bool
  | none => false
  | some s => !s.isEmpty

/-- The `SystemExit` message raised by all three scripts when a required
environment value is falsy. -/
def envMessage : List Char :=
  "Set AZURE_OPENAI_ENDPOINT and AZURE_OPENAI_API_KEY in your .env file.".toList

/-- The client object built after the guard passes: it is bound to the
validated key and the normalized base URL. -/
structure Client where
  api_key : List Char
  base_url : List Char

/-- The startup sequence of every script up to client construction:
run the guard `if not AZURE_OPENAI_ENDPOINT or not AZURE_OPENAI_API_KEY:
raise SystemExit(...)`, then build the client from the normalized URL.
An `Except.error` result carries the `SystemExit` message; it holds no
`Client`, so no client is constructed and no network call can follow. -/
def startup (endpoint api_key : Option (List Char)) : Except (List Char) Client :=
  if !truthy endpoint || !truthy api_key then Except.error envMessage
  else Except.ok { api_key := api_key.getD [], base_url := base_url (endpoint.getD []) }

/-- Process exit status: `raise SystemExit(msg)` with a string argument
exits the interpreter with status 1; a startup that passes the guard
continues with status 0 so far. -/
def exitCode : Except (List Char) Client → Nat
  | .error _ => 1
  | .ok _ => 0

end Config

namespace Vanila

/-- A reasoning-summary fragment; `text = none` models an object without
a `text` attribute (`hasattr(part, "text")` false). -/
structure SummaryPart where
  text : Option (List Char)

/-- A message content part; `text = none` models a part without a `text`
attribute. -/
structure ContentPart where
  text : Option (List Char)

/-- One element of `response.output`. `reasoning none` models a reasoning
item without a `summary` attribute, `reasoning (some [])` one whose
summary list is empty (both falsy in Python); `other` models any other
`type` tag. -/
inductive Item where
  | reasoning (summary : Option (List SummaryPart))
  | message (content : List ContentPart)
  | other (ty : List Char)

/-- `usage.output_tokens_details`; `reasoning_tokens = none` models an
absent attribute, read through `getattr(..., "reasoning_tokens", 0)`. -/
structure OutputTokensDetails where
  reasoning_tokens : Option Nat

/-- The usage record of the Responses API object. The three counter
fields are accessed directly (`usage.input_tokens` etc.), so they are
required; `output_tokens_details = none` models an absent or `None`
(falsy) attribute. -/
structure Usage where
  input_tokens : Nat
  output_tokens : Nat
  total_tokens : Nat
  output_tokens_details : Option OutputTokensDetails

/-- The Responses API result consumed by `print_response`. -/
structure Response where
  output : List Item
  usage : Usage

/-- The prints produced by the `for item in response.output` loop body of
`print_response` for one item. -/
def printItem : Item → List (List Char)
  | .reasoning summary =>
      match summary with
      | some (p :: ps) =>
          "\n--- Reasoning Summary ---".toList
            :: (p :: ps).filterMap (fun part => part.text)
      | _ => ["\n--- Reasoning (no summary returned) ---".toList]
  | .message content =>
      content.filterMap
        (fun cp => cp.text.map (fun t => "\n--- Answer ---\n".toList ++ t))
  | .other _ => []

/-- The token-usage section of `print_response`: the reasoning line is
printed whenever `output_tokens_details` is present and truthy, with
`getattr(..., "reasoning_tokens", 0)` defaulting an absent field to 0. -/
def usageLines (usage : Usage) : List (List Char) :=
  ["\n--- Token Usage ---".toList,
   "  Input tokens:     ".toList ++ natStr usage.input_tokens,
   "  Output tokens:    ".toList ++ natStr usage.output_tokens]
  ++ (match usage.output_tokens_details with
      | some d => ["  Reasoning tokens: ".toList ++ natStr (d.reasoning_tokens.getD 0)]
      | none => [])
  ++ ["  Total tokens:     ".toList ++ natStr usage.total_tokens]

/-- `print_response` of `vanila_example.py` as the list of its print
payloads: the bordered label, the per-item sections, the usage section,
and the final empty `print()`. -/
def print_response (label : List Char) (response : Response) : List (List Char) :=
  headerLines label ++ response.output.flatMap printItem
    ++ usageLines response.usage ++ [[]]

/-- State-passing form of `print_response`: the source only reads the
response object (no attribute assignment occurs anywhere in the
function), so the response state is returned unchanged. -/
def print_response_st (label : List Char) (response : Response) :
    List (List Char) × Response :=
  (print_response label response, response)

end Vanila

namespace LC

/-- A summary dict inside a reasoning block; `text = none` models a
missing `"text"` key, read through `summary_part.get("text", "")`. -/
structure SummaryPartD where
  text : Option (List Char)

/-- One element of `response.content` when it is a list. A `dict` block
carries its `"type"` value (`none` when the key is missing), its
`"summary"` list (`block.get("summary", [])` defaults to `[]`), and its
`"text"` value; `nonDict` models a non-dict element, skipped by
`continue`. -/
inductive Block where
  | dict (ty : Option (List Char)) (summary : List SummaryPartD)
      (text : Option (List Char))
  | nonDict

/-- `response.content`: a list of blocks when reasoning is enabled, else
a plain string. -/
inductive Content where
  | blocks (bs : List Block)
  | plain (s : List Char)

/-- `usage.get("output_token_details", {})`; the dict's `"reasoning"` key
may be missing or `None`, both modelled by `none`. -/
structure DetailsD where
  reasoning : Option Nat

/-- The `usage_metadata` dict; each missing key is `none` and prints as
the `"N/A"` default of `usage.get(..., "N/A")`. -/
structure UsageD where
  input_tokens : Option Nat
  output_tokens : Option Nat
  total_tokens : Option Nat
  output_token_details : Option DetailsD

/-- The LangChain `AIMessage` as consumed by `print_response`:
`usage_metadata = none` models a `None` or empty (falsy) dict. -/
structure Response where
  content : Content
  usage_metadata : Option UsageD

/-- Python `value if present else default` for dict reads. -/
def getD (o : Option (List Char)) (d : List Char) : List Char := o.getD d

/-- The prints produced for one block of the content list: a reasoning
block prints one headed line per summary part with non-empty text, a
text block prints the answer, any other (or missing) type prints
nothing, and a non-dict element is skipped by `continue`. -/
def printBlock : Block → List (List Char)
  | .dict ty summary text =>
      if ty = some ("reasoning".toList) then
        summary.filterMap (fun part =>
          match getD part.text [] with
          | [] => none
          | t => some ("\n--- Reasoning Summary ---\n".toList ++ t))
      else if ty = some ("text".toList) then
        ["\n--- Answer ---\n".toList ++ getD text []]
      else []
  | .nonDict => []

/-- The content section of `print_response`: iterate the blocks when the
content is a list; print the plain string under `--- Answer ---` when it
is a non-empty string, nothing when it is empty. -/
def printContent : Content → List (List Char)
  | .blocks bs => bs.flatMap printBlock
  | .plain s => if s.isEmpty then [] else ["\n--- Answer ---\n".toList ++ s]

/-- Python `usage.get(key, "N/A")` rendered by the f-string: the count
when the key is present, the literal `N/A` placeholder otherwise. -/
def natOrNA : Option Nat → List Char
  | some n => natStr n
  | none => "N/A".toList

/-- The token-usage section printed when `usage` is truthy, with the
given heading line: input, output, the reasoning line only when
`output_token_details` is truthy and its `"reasoning"` value is not
`None`, then total. Missing counter keys print as `N/A`. -/
def usageLinesD (heading : List Char) (u : UsageD) : List (List Char) :=
  [heading,
   "  Input tokens:     ".toList ++ natOrNA u.input_tokens,
   "  Output tokens:    ".toList ++ natOrNA u.output_tokens]
  ++ (match u.output_token_details with
      | some d =>
          match d.reasoning with
          | some r => ["  Reasoning tokens: ".toList ++ natStr r]
          | none => []
      | none => [])
  ++ ["  Total tokens:     ".toList ++ natOrNA u.total_tokens]

/-- `print_response` of `langchain_example.py` as the list of its print
payloads. -/
def print_response (label : List Char) (response : Response) : List (List Char) :=
  headerLines label ++ printContent response.content
    ++ (match response.usage_metadata with
        | some u => usageLinesD ("\n--- Token Usage ---".toList) u
        | none => [])
    ++ [[]]

/-- State-passing form of `print_response`: the source only reads the
response object, so the response state is returned unchanged. -/
def print_response_st (label : List Char) (response : Response) :
    List (List Char) × Response :=
  (print_response label response, response)

end LC

namespace DA

/-- One LangChain message in the agent result. `ty` is
`getattr(m, "type", "")` and `name` the tool name; tool messages carry
plain-string content (both tools of the script return strings), which
`tm.content[:120]` slices. -/
structure Msg where
  content : LC.Content
  usage_metadata : Option LC.UsageD
  ty : List Char
  name : List Char

/-- The agent result dict; `messages = none` models a missing
`"messages"` key, read through `result.get("messages", [])`. -/
structure AgentResult where
  messages : Option (List Msg)

/-- The preview `tm.content[:120]` printed for a tool message; the tool
messages produced by this script always carry plain-string content, so
the slice is a string slice (a structured list would be sliced
elementwise; it never occurs here and is modelled by its text parts). -/
def toolPreview : LC.Content → List Char
  | .plain s => s.take 120
  | .blocks _ => []

/-- The tools section of `print_result`: printed only when some message
has `type == "tool"`. -/
def toolsSection (messages : List Msg) : List (List Char) :=
  match messages.filter (fun m => m.ty = "tool".toList) with
  | [] => []
  | tm :: tms =>
      ("\n--- Tools Used (".toList ++ natStr (tm :: tms).length
          ++ " call(s)) ---".toList)
        :: (tm :: tms).map (fun t =>
            "  [".toList ++ t.name ++ "] -> ".toList ++ toolPreview t.content)

/-- `print_result` of `deepagent_example.py` as the list of its print
payloads: on an empty (or missing) messages list it prints the
`(no messages returned)` placeholder and returns early; otherwise it
formats the last message's content and usage, then the tools section,
then the final empty `print()`. -/
def print_result (label : List Char) (result : AgentResult) : List (List Char) :=
  headerLines label ++
    match result.messages.getD [] with
    | [] => ["  (no messages returned)".toList]
    | m :: ms =>
        let final_msg := (m :: ms).getLast (List.cons_ne_nil m ms)
        LC.printContent final_msg.content
          ++ (match final_msg.usage_metadata with
              | some u => LC.usageLinesD ("\n--- Token Usage (final message) ---".toList) u
              | none => [])
          ++ toolsSection (m :: ms)
          ++ [[]]

end DA

/-! ## Helper lemmas -/

theorem filterMap_some_comp {α β : Type} (f : α → β) (l : List α) :
    l.filterMap (fun x => some (f x)) = l.map f := by
  induction l <;> simp_all [List.filterMap_cons]

theorem filterMap_text_map (ts : List (List Char)) :
    (ts.map (fun x => (⟨some x⟩ : Vanila.SummaryPart))).filterMap
        (fun part => part.text) = ts := by
  induction ts <;> simp_all [List.filterMap_cons]

/-- Two lists differing at some index are different. -/
theorem getq_ne {α : Type} (l₁ l₂ : List α) (n : Nat)
    (h : l₁[n]? ≠ l₂[n]?) : l₁ ≠ l₂ := fun he => h (he ▸ rfl)

/-- Two payloads built from literal parts that differ inside both
literals are different, whatever the appended suffixes are. -/
theorem append_lit_ne {a b : List Char} (x y : List Char) (n : Nat)
    (hna : n < a.length) (hnb : n < b.length) (h : a[n]? ≠ b[n]?) :
    a ++ x ≠ b ++ y := by
  apply getq_ne _ _ n
  rw [List.getElem?_append_left hna, List.getElem?_append_left hnb]
  exact h

/-- A fixed payload differs from a literal-prefixed payload when they
disagree inside the literal part. -/
theorem lit_ne_append {a b : List Char} (y : List Char) (n : Nat)
    (hnb : n < b.length) (h : a[n]? ≠ b[n]?) : a ≠ b ++ y := by
  apply getq_ne _ _ n
  rw [List.getElem?_append_left hnb]
  exact h

theorem Config.containsSub_iff_markerIdx (pat s : List Char) :
    Config.containsSub pat s = true ↔ (Config.markerIdx pat s).isSome := by
  induction s with
  | nil =>
      by_cases h : pat.isEmpty <;> simp [Config.containsSub, Config.markerIdx, h]
  | cons c rest ih =>
      by_cases h : pat.isPrefixOf (c :: rest)
      · simp [Config.containsSub, Config.markerIdx, h]
      · simp [Config.containsSub, Config.markerIdx, h, ih, Option.isSome_map]

theorem Config.prefixBefore_eq_take (pat s : List Char) (i : Nat)
    (h : Config.markerIdx pat s = some i) :
    Config.prefixBefore pat s = s.take i := by
  induction s generalizing i with
  | nil =>
      by_cases hp : pat.isEmpty <;>
        simp_all [Config.markerIdx, Config.prefixBefore, hp, List.take_nil]
  | cons c rest ih =>
      by_cases hp : pat.isPrefixOf (c :: rest)
      · simp_all [Config.markerIdx, Config.prefixBefore, hp]
      · rw [Config.markerIdx, if_neg (by simpa using hp)] at h
        rw [Option.map_eq_some'] at h
        obtain ⟨n, hn, rfl⟩ := h
        simp [Config.prefixBefore, hp, ih n hn, List.take_succ_cons]

/-! ## Claim theorems -/

/-- C1: for every endpoint containing the marker `/api/projects/`, the
scripts' `base_url` agrees with the spec-side normalization (truncate at
the first occurrence of the marker, strip trailing slashes, append
`/openai/v1/`); and on the concrete endpoint
`https://r.services.ai.azure.com/api/projects/p1` the result is exactly
`https://r.services.ai.azure.com/openai/v1/`. -/
theorem c1_base_url_normalization :
    (∀ endpoint : List Char, Config.containsSub Config.marker endpoint = true →
        Config.specNormalize endpoint = some (Config.base_url endpoint)) ∧
    Config.base_url ("https://r.services.ai.azure.com/api/projects/p1".toList)
      = "https://r.services.ai.azure.com/openai/v1/".toList := by
  constructor
  · intro s h
    obtain ⟨i, hi⟩ :=
      Option.isSome_iff_exists.mp ((Config.containsSub_iff_markerIdx _ s).mp h)
    simp [Config.specNormalize, hi, Config.base_url, Config.resource_endpoint, h,
      Config.prefixBefore_eq_take Config.marker s i hi]
  · decide

/-- C2 fails as stated: with reasoning value 42 the LangChain formatter
prints the line `  Reasoning tokens: 42` (two leading spaces), never the
bare `Reasoning tokens: 42`; and the vanilla formatter does not omit the
line when `reasoning_tokens` is absent — with `output_tokens_details`
present it prints the `getattr` default `  Reasoning tokens: 0`. -/
theorem c2_counterexample :
    ("Reasoning tokens: 42".toList ∉
        LC.print_response []
          ⟨LC.Content.plain [], some ⟨some 1, some 2, some 3, some ⟨some 42⟩⟩⟩) ∧
    ("  Reasoning tokens: 42".toList ∈
        LC.print_response []
          ⟨LC.Content.plain [], some ⟨some 1, some 2, some 3, some ⟨some 42⟩⟩⟩) ∧
    ("  Reasoning tokens: 0".toList ∈
        Vanila.print_response [] ⟨[], ⟨1, 2, 3, some ⟨none⟩⟩⟩) := by decide

/-- C2 amended: in the LangChain-style usage section the reasoning line
is omitted exactly when the nested reasoning entry is absent or null,
and with value 42 the printed line is `  Reasoning tokens: 42` (the
two-space indent of the section included); the vanilla formatter omits
the line exactly when `output_tokens_details` is absent or falsy, and
with details present an absent `reasoning_tokens` prints as
`  Reasoning tokens: 0`. -/
theorem c2_reasoning_tokens_line (heading : List Char) (u : LC.UsageD)
    (v : Vanila.Usage) (d : Vanila.OutputTokensDetails) :
    (u.output_token_details.bind (fun dd => dd.reasoning) = none →
        LC.usageLinesD heading u
          = [heading,
             "  Input tokens:     ".toList ++ LC.natOrNA u.input_tokens,
             "  Output tokens:    ".toList ++ LC.natOrNA u.output_tokens,
             "  Total tokens:     ".toList ++ LC.natOrNA u.total_tokens]) ∧
    (u.output_token_details.bind (fun dd => dd.reasoning) = some 42 →
        LC.usageLinesD heading u
          = [heading,
             "  Input tokens:     ".toList ++ LC.natOrNA u.input_tokens,
             "  Output tokens:    ".toList ++ LC.natOrNA u.output_tokens,
             "  Reasoning tokens: 42".toList,
             "  Total tokens:     ".toList ++ LC.natOrNA u.total_tokens]) ∧
    (v.output_tokens_details = none →
        Vanila.usageLines v
          = ["\n--- Token Usage ---".toList,
             "  Input tokens:     ".toList ++ natStr v.input_tokens,
             "  Output tokens:    ".toList ++ natStr v.output_tokens,
             "  Total tokens:     ".toList ++ natStr v.total_tokens]) ∧
    (v.output_tokens_details = some d → d.reasoning_tokens = none →
        Vanila.usageLines v
          = ["\n--- Token Usage ---".toList,
             "  Input tokens:     ".toList ++ natStr v.input_tokens,
             "  Output tokens:    ".toList ++ natStr v.output_tokens,
             "  Reasoning tokens: 0".toList,
             "  Total tokens:     ".toList ++ natStr v.total_tokens]) := by
  refine ⟨?_, ?_, ?_, ?_⟩
  · intro h
    cases hd : u.output_token_details with
    | none => simp [LC.usageLinesD, hd]
    | some dd =>
        rw [hd, Option.some_bind] at h
        simp [LC.usageLinesD, hd, h]
  · intro h
    cases hd : u.output_token_details with
    | none => rw [hd, Option.none_bind] at h; cases h
    | some dd =>
        rw [hd, Option.some_bind] at h
        simp [LC.usageLinesD, hd, h]
        decide
  · intro h
    simp [Vanila.usageLines, h]
  · intro h hr
    simp [Vanila.usageLines, h, hr]
    decide

/-- Instantiation of `c2_reasoning_tokens_line` at concrete usage
records, one per amended branch. -/
theorem c2_reasoning_tokens_line_witness :
    (LC.usageLinesD [] ⟨some 9, some 9, some 9, some ⟨none⟩⟩
      = [[],
         "  Input tokens:     ".toList ++ LC.natOrNA (some 9),
         "  Output tokens:    ".toList ++ LC.natOrNA (some 9),
         "  Total tokens:     ".toList ++ LC.natOrNA (some 9)]) ∧
    (LC.usageLinesD [] ⟨none, none, none, some ⟨some 42⟩⟩
      = [[],
         "  Input tokens:     ".toList ++ LC.natOrNA none,
         "  Output tokens:    ".toList ++ LC.natOrNA none,
         "  Reasoning tokens: 42".toList,
         "  Total tokens:     ".toList ++ LC.natOrNA none]) ∧
    (Vanila.usageLines ⟨1, 2, 3, none⟩
      = ["\n--- Token Usage ---".toList,
         "  Input tokens:     ".toList ++ natStr 1,
         "  Output tokens:    ".toList ++ natStr 2,
         "  Total tokens:     ".toList ++ natStr 3]) ∧
    (Vanila.usageLines ⟨1, 2, 3, some ⟨none⟩⟩
      = ["\n--- Token Usage ---".toList,
         "  Input tokens:     ".toList ++ natStr 1,
         "  Output tokens:    ".toList ++ natStr 2,
         "  Reasoning tokens: 0".toList,
         "  Total tokens:     ".toList ++ natStr 3]) :=
  ⟨(c2_reasoning_tokens_line [] ⟨some 9, some 9, some 9, some ⟨none⟩⟩
      ⟨1, 2, 3, none⟩ ⟨none⟩).1 rfl,
   (c2_reasoning_tokens_line [] ⟨none, none, none, some ⟨some 42⟩⟩
      ⟨1, 2, 3, none⟩ ⟨none⟩).2.1 rfl,
   (c2_reasoning_tokens_line [] ⟨none, none, none, none⟩
      ⟨1, 2, 3, none⟩ ⟨none⟩).2.2.1 rfl,
   (c2_reasoning_tokens_line [] ⟨none, none, none, none⟩
      ⟨1, 2, 3, some ⟨none⟩⟩ ⟨none⟩).2.2.2 rfl rfl⟩

/-- Instantiation of the universally quantified part of
`c1_base_url_normalization` at a concrete project-scoped endpoint. -/
theorem c1_base_url_normalization_witness :
    Config.containsSub Config.marker ("https://h.example/api/projects/x".toList) = true ∧
    Config.specNormalize ("https://h.example/api/projects/x".toList)
      = some (Config.base_url ("https://h.example/api/projects/x".toList)) :=
  ⟨by decide, c1_base_url_normalization.1 _ (by decide)⟩

/-- C3: for a well-formed items-shape Response made of one reasoning
item carrying the summary texts `ts` followed by one message item with
text `T`, the vanilla formatter output contains the summary lines in
their given order, followed by the answer section carrying `T` (the
script prints the answer as the payload `\n--- Answer ---\n` ++ `T`;
no formatter ever prints a literal `Answer:` prefix). -/
theorem c3_items_order (label : List Char) (ts : List (List Char))
    (T : List Char) (u : Vanila.Usage) :
    (ts ++ ["\n--- Answer ---\n".toList ++ T]).Sublist
      (Vanila.print_response label
        ⟨[Vanila.Item.reasoning (some (ts.map (fun t => ⟨some t⟩))),
          Vanila.Item.message [⟨some T⟩]], u⟩) := by
  have hmsg : Vanila.printItem (Vanila.Item.message [⟨some T⟩])
      = ["\n--- Answer ---\n".toList ++ T] := by
    simp [Vanila.printItem]
  cases ts with
  | nil =>
      have hplh : Vanila.printItem (Vanila.Item.reasoning (some []))
          = ["\n--- Reasoning (no summary returned) ---".toList] := by decide
      have key : ["\n--- Answer ---\n".toList ++ T].Sublist
          (("\n--- Answer ---\n".toList ++ T) :: (Vanila.usageLines u ++ [[]])) :=
        List.cons_sublist_cons.mpr (List.nil_sublist _)
      have final := (((key.cons
          ("\n--- Reasoning (no summary returned) ---".toList)).cons
          banner).cons ("  ".toList ++ label)).cons ("\n".toList ++ banner)
      simp only [Vanila.print_response, List.flatMap_cons, List.flatMap_nil, hplh,
        hmsg, headerLines, List.map_nil, List.append_nil, List.nil_append,
        List.cons_append, List.singleton_append, List.append_assoc]
      exact final
  | cons t ts =>
      have hr : Vanila.printItem (Vanila.Item.reasoning
            (some ((⟨some t⟩ : Vanila.SummaryPart) :: ts.map (fun x => ⟨some x⟩))))
          = "\n--- Reasoning Summary ---".toList :: (t :: ts) := by
        show "\n--- Reasoning Summary ---".toList
            :: (((⟨some t⟩ : Vanila.SummaryPart)
                :: ts.map (fun x => (⟨some x⟩ : Vanila.SummaryPart))).filterMap
                (fun part => part.text))
          = "\n--- Reasoning Summary ---".toList :: (t :: ts)
        have := filterMap_text_map (t :: ts)
        simpa [List.filterMap_cons] using this
      have key : ((t :: ts) ++ ["\n--- Answer ---\n".toList ++ T]).Sublist
          ((t :: ts) ++ (("\n--- Answer ---\n".toList ++ T)
              :: (Vanila.usageLines u ++ [[]]))) :=
        List.Sublist.append_left
          (List.cons_sublist_cons.mpr (List.nil_sublist _)) (t :: ts)
      have final := (((key.cons ("\n--- Reasoning Summary ---".toList)).cons
          banner).cons ("  ".toList ++ label)).cons ("\n".toList ++ banner)
      simpa [Vanila.print_response, hr, hmsg, headerLines] using final

/-- C4 fails as stated: with both environment values present but the
endpoint set to the empty string, the guard still raises `SystemExit`
although both values are present. -/
theorem c4_counterexample :
    Config.startup (some []) (some ("key".toList)) = Except.error Config.envMessage := rfl

/-- C4 amended: when the endpoint or key is missing (or present but
empty, which Python treats as falsy too), startup stops with the
descriptive `SystemExit` message and exit status 1 before any client is
constructed (the error result carries no client); when both are present
and non-empty, the guard passes and the client is built from the key and
the normalized base URL. -/
theorem c4_guard (e k : Option (List Char)) :
    ((Config.truthy e = false ∨ Config.truthy k = false) →
      Config.startup e k = Except.error Config.envMessage ∧
      Config.exitCode (Config.startup e k) = 1 ∧
      Config.envMessage ≠ []) ∧
    (Config.truthy e = true → Config.truthy k = true →
      Config.startup e k
        = Except.ok ⟨k.getD [], Config.base_url (e.getD [])⟩) := by
  constructor
  · intro h
    have hcond : (!Config.truthy e || !Config.truthy k) = true := by
      rcases h with h | h <;> simp [h]
    refine ⟨by simp [Config.startup, hcond], ?_, by decide⟩
    simp [Config.startup, hcond, Config.exitCode]
  · intro he hk
    simp [Config.startup, he, hk]

/-- Instantiation of `c4_guard`: an unset key exits with status 1 before
client construction, and non-empty endpoint and key pass the guard. -/
theorem c4_guard_witness :
    (Config.startup (some ("e".toList)) none = Except.error Config.envMessage ∧
      Config.exitCode (Config.startup (some ("e".toList)) none) = 1 ∧
      Config.envMessage ≠ []) ∧
    Config.startup (some ("e".toList)) (some ("k".toList))
      = Except.ok ⟨"k".toList, Config.base_url ("e".toList)⟩ :=
  ⟨(c4_guard (some ("e".toList)) none).1 (Or.inr rfl),
   (c4_guard (some ("e".toList)) (some ("k".toList))).2 (by decide) (by decide)⟩

/-- C5 fails as stated: on a Response with an empty block list the
LangChain formatter prints no placeholder at all — the output is exactly
the header, the usage section and the final blank print, and in
particular contains no extra payload between header and usage section
(the deep-agent `(no messages returned)` placeholder is not among the
payloads either). -/
theorem c5_counterexample :
    LC.print_response ("Example".toList)
        ⟨LC.Content.blocks [], some ⟨some 1, some 2, some 3, none⟩⟩
      = headerLines ("Example".toList)
          ++ LC.usageLinesD ("\n--- Token Usage ---".toList)
              ⟨some 1, some 2, some 3, none⟩
          ++ [[]] ∧
    "  (no messages returned)".toList ∉
      LC.print_response ("Example".toList)
        ⟨LC.Content.blocks [], some ⟨some 1, some 2, some 3, none⟩⟩ := by decide

/-- C5 amended: an empty block/item sequence produces no content-section
output at all — the formatters print only the header, the usage section
and the final blank line, with no placeholder — and, being total
functions, they do not raise; only the deep-agent script prints a
placeholder, `  (no messages returned)`, and only when its messages list
is empty or missing. -/
theorem c5_empty_sequence (label : List Char) (um : Option LC.UsageD)
    (u : Vanila.Usage) :
    LC.printContent (LC.Content.blocks []) = [] ∧
    LC.print_response label ⟨LC.Content.blocks [], um⟩
      = headerLines label
          ++ (match um with
              | some uu => LC.usageLinesD ("\n--- Token Usage ---".toList) uu
              | none => []) ++ [[]] ∧
    Vanila.print_response label ⟨[], u⟩
      = headerLines label ++ Vanila.usageLines u ++ [[]] ∧
    DA.print_result label ⟨some []⟩
      = headerLines label ++ ["  (no messages returned)".toList] ∧
    DA.print_result label ⟨none⟩
      = headerLines label ++ ["  (no messages returned)".toList] := by
  refine ⟨rfl, ?_, ?_, rfl, rfl⟩
  · simp [LC.print_response, LC.printContent]
  · simp [Vanila.print_response]

/-- C6: when a counter key is missing from the usage dict, the
LangChain-style usage section prints the literal not-applicable
placeholder `N/A` (the default of `usage.get(key, "N/A")`) on that
field's line instead of failing; the formatter is a total function, so
no error is possible. -/
theorem c6_usage_na (heading : List Char) (u : LC.UsageD) :
    (u.input_tokens = none →
        "  Input tokens:     N/A".toList ∈ LC.usageLinesD heading u) ∧
    (u.output_tokens = none →
        "  Output tokens:    N/A".toList ∈ LC.usageLinesD heading u) ∧
    (u.total_tokens = none →
        "  Total tokens:     N/A".toList ∈ LC.usageLinesD heading u) := by
  refine ⟨?_, ?_, ?_⟩
  · intro h
    have hb : "  Input tokens:     N/A".toList
        = "  Input tokens:     ".toList ++ LC.natOrNA u.input_tokens := by
      rw [h]; decide
    rw [hb]
    simp [LC.usageLinesD, List.mem_append, List.mem_cons]
  · intro h
    have hb : "  Output tokens:    N/A".toList
        = "  Output tokens:    ".toList ++ LC.natOrNA u.output_tokens := by
      rw [h]; decide
    rw [hb]
    simp [LC.usageLinesD, List.mem_append, List.mem_cons]
  · intro h
    have hb : "  Total tokens:     N/A".toList
        = "  Total tokens:     ".toList ++ LC.natOrNA u.total_tokens := by
      rw [h]; decide
    rw [hb]
    simp [LC.usageLinesD, List.mem_append, List.mem_cons]

/-- Instantiation of `c6_usage_na` at a usage dict missing all three
counter keys. -/
theorem c6_usage_na_witness :
    "  Input tokens:     N/A".toList
        ∈ LC.usageLinesD [] ⟨none, none, none, none⟩ ∧
    "  Output tokens:    N/A".toList
        ∈ LC.usageLinesD [] ⟨none, none, none, none⟩ ∧
    "  Total tokens:     N/A".toList
        ∈ LC.usageLinesD [] ⟨none, none, none, none⟩ :=
  ⟨(c6_usage_na [] ⟨none, none, none, none⟩).1 rfl,
   (c6_usage_na [] ⟨none, none, none, none⟩).2.1 rfl,
   (c6_usage_na [] ⟨none, none, none, none⟩).2.2 rfl⟩

/-- C8: a block whose kind tag is neither `reasoning` nor `text` (or is
absent, or which is not a dict at all) contributes no output, and
deleting it from the content list leaves the formatted output of the
remaining blocks unchanged; likewise for an items-shape element whose
tag is neither `reasoning` nor `message` in the vanilla formatter. -/
theorem c8_unknown_kind_skipped :
    (∀ (ty : Option (List Char)) (summary : List LC.SummaryPartD)
        (text : Option (List Char)),
        ty ≠ some ("reasoning".toList) → ty ≠ some ("text".toList) →
        LC.printBlock (LC.Block.dict ty summary text) = [] ∧
        ∀ pre post : List LC.Block,
          (pre ++ LC.Block.dict ty summary text :: post).flatMap LC.printBlock
            = (pre ++ post).flatMap LC.printBlock) ∧
    (∀ pre post : List LC.Block,
        (pre ++ LC.Block.nonDict :: post).flatMap LC.printBlock
          = (pre ++ post).flatMap LC.printBlock) ∧
    (∀ (tag : List Char) (pre post : List Vanila.Item),
        Vanila.printItem (Vanila.Item.other tag) = [] ∧
        (pre ++ Vanila.Item.other tag :: post).flatMap Vanila.printItem
          = (pre ++ post).flatMap Vanila.printItem) := by
  refine ⟨?_, ?_, ?_⟩
  · intro ty s t h1 h2
    have hb : LC.printBlock (LC.Block.dict ty s t) = [] := by
      simp only [LC.printBlock]
      rw [if_neg h1, if_neg h2]
    exact ⟨hb, fun pre post => by
      simp [List.flatMap_append, List.flatMap_cons, hb]⟩
  · intro pre post
    simp [List.flatMap_append, List.flatMap_cons, LC.printBlock]
  · intro tag pre post
    exact ⟨rfl, by
      simp [List.flatMap_append, List.flatMap_cons, Vanila.printItem]⟩

/-- Instantiation of `c8_unknown_kind_skipped` at an unrecognized
`tool_call` tag and at an absent tag. -/
theorem c8_unknown_kind_skipped_witness :
    LC.printBlock (LC.Block.dict (some ("tool_call".toList)) [] none) = [] ∧
    ([LC.Block.nonDict] ++ LC.Block.dict none [] none :: []).flatMap LC.printBlock
      = ([LC.Block.nonDict] ++ []).flatMap LC.printBlock :=
  ⟨(c8_unknown_kind_skipped.1 (some ("tool_call".toList)) [] none
      (by decide) (by decide)).1,
   (c8_unknown_kind_skipped.1 none [] none
      (by decide) (by decide)).2 [LC.Block.nonDict] []⟩

/-- C9: the formatters are pure readers of the response: the
state-passing embedding returns the response unchanged (the source
contains no attribute assignment), and a second call on the returned
state produces a payload list identical to the first, hence
byte-identical printed output. -/
theorem c9_formatter_pure (label : List Char) (rv : Vanila.Response)
    (rl : LC.Response) :
    Vanila.print_response_st label rv = (Vanila.print_response label rv, rv) ∧
    (Vanila.print_response_st label ((Vanila.print_response_st label rv).2)).1
      = (Vanila.print_response_st label rv).1 ∧
    LC.print_response_st label rl = (LC.print_response label rl, rl) ∧
    (LC.print_response_st label ((LC.print_response_st label rl).2)).1
      = (LC.print_response_st label rl).1 :=
  ⟨rfl, rfl, rfl, rfl⟩

/-- C10: a vanilla reasoning item whose `summary` attribute is absent
(`none`) or empty (`some []`, falsy) prints the payload
`\n--- Reasoning (no summary returned) ---` — a blank line followed by
the placeholder line — rather than omitting the reasoning section, and
that payload appears in the full formatter output. -/
theorem c10_reasoning_placeholder (summary : Option (List Vanila.SummaryPart))
    (h : summary = none ∨ summary = some []) (label : List Char)
    (u : Vanila.Usage) (pre post : List Vanila.Item) :
    Vanila.printItem (Vanila.Item.reasoning summary)
      = ["\n--- Reasoning (no summary returned) ---".toList] ∧
    "\n--- Reasoning (no summary returned) ---".toList
      ∈ Vanila.print_response label
          ⟨pre ++ Vanila.Item.reasoning summary :: post, u⟩ := by
  have hp : Vanila.printItem (Vanila.Item.reasoning summary)
      = ["\n--- Reasoning (no summary returned) ---".toList] := by
    rcases h with h | h <;> subst h <;> rfl
  refine ⟨hp, ?_⟩
  simp [Vanila.print_response, List.flatMap_append, List.flatMap_cons, hp,
    List.mem_append, List.mem_cons]

/-- Instantiation of `c10_reasoning_placeholder` at an absent summary
attribute inside a one-item response. -/
theorem c10_reasoning_placeholder_witness :
    Vanila.printItem (Vanila.Item.reasoning none)
      = ["\n--- Reasoning (no summary returned) ---".toList] ∧
    "\n--- Reasoning (no summary returned) ---".toList
      ∈ Vanila.print_response []
          ⟨[] ++ Vanila.Item.reasoning none :: [], ⟨0, 0, 0, none⟩⟩ :=
  c10_reasoning_placeholder none (Or.inl rfl) [] ⟨0, 0, 0, none⟩ [] []

/-- Every payload of the LangChain usage section is either its heading
or starts with the section's two-space indent. -/
theorem mem_usageLinesD {p heading : List Char} {u : LC.UsageD}
    (h : p ∈ LC.usageLinesD heading u) :
    p = heading ∨ ∃ q, p = ' ' :: ' ' :: q := by
  rcases u with ⟨i, o, t, det⟩
  rcases det with _ | ⟨r⟩
  · simp only [LC.usageLinesD, List.mem_append, List.mem_cons,
      List.not_mem_nil, or_false, List.nil_append] at h
    rcases h with (h | h | h) | h
    · exact Or.inl h
    · exact Or.inr ⟨"Input tokens:     ".toList ++ LC.natOrNA i, by rw [h]; rfl⟩
    · exact Or.inr ⟨"Output tokens:    ".toList ++ LC.natOrNA o, by rw [h]; rfl⟩
    · exact Or.inr ⟨"Total tokens:     ".toList ++ LC.natOrNA t, by rw [h]; rfl⟩
  · rcases r with _ | r
    · simp only [LC.usageLinesD, List.mem_append, List.mem_cons,
        List.not_mem_nil, or_false, List.nil_append] at h
      rcases h with (h | h | h) | h
      · exact Or.inl h
      · exact Or.inr ⟨"Input tokens:     ".toList ++ LC.natOrNA i, by rw [h]; rfl⟩
      · exact Or.inr ⟨"Output tokens:    ".toList ++ LC.natOrNA o, by rw [h]; rfl⟩
      · exact Or.inr ⟨"Total tokens:     ".toList ++ LC.natOrNA t, by rw [h]; rfl⟩
    · simp only [LC.usageLinesD, List.mem_append, List.mem_cons,
        List.not_mem_nil, or_false, List.nil_append] at h
      rcases h with ((h | h | h) | h) | h
      · exact Or.inl h
      · exact Or.inr ⟨"Input tokens:     ".toList ++ LC.natOrNA i, by rw [h]; rfl⟩
      · exact Or.inr ⟨"Output tokens:    ".toList ++ LC.natOrNA o, by rw [h]; rfl⟩
      · exact Or.inr ⟨"Reasoning tokens: ".toList ++ natStr r, by rw [h]; rfl⟩
      · exact Or.inr ⟨"Total tokens:     ".toList ++ LC.natOrNA t, by rw [h]; rfl⟩

/-- The answer payload for `Hello` never occurs in the usage section. -/
theorem ans_hello_notMem_usage (u : LC.UsageD) :
    "\n--- Answer ---\nHello".toList
      ∉ LC.usageLinesD ("\n--- Token Usage ---".toList) u := by
  intro h
  rcases mem_usageLinesD h with h | ⟨q, h⟩
  · exact absurd h (by decide)
  · revert h
    apply getq_ne _ _ 0
    simp only [List.getElem?_cons_zero]
    decide

/-- The answer payload for `Hello` never occurs in the header lines. -/
theorem ans_hello_notMem_header (label : List Char) :
    "\n--- Answer ---\nHello".toList ∉ headerLines label := by
  intro h
  simp only [headerLines, List.mem_cons, List.not_mem_nil, or_false] at h
  rcases h with h | h | h
  · exact absurd h (by decide)
  · revert h
    apply getq_ne _ _ 0
    rw [List.getElem?_append_left (by decide)]
    decide
  · exact absurd h (by decide)

/-- C7: on a Response whose content is the plain string `Hello`, the
LangChain formatter prints the header, exactly one answer payload
`\n--- Answer ---\nHello` (count 1 in the whole output), the usage
section and the final blank line — and no payload of the output is a
Reasoning Summary section. -/
theorem c7_plain_string_answer (label : List Char) (um : Option LC.UsageD) :
    LC.print_response label ⟨LC.Content.plain ("Hello".toList), um⟩
      = headerLines label ++ ["\n--- Answer ---\nHello".toList]
          ++ (match um with
              | some u => LC.usageLinesD ("\n--- Token Usage ---".toList) u
              | none => []) ++ [[]] ∧
    (LC.print_response label ⟨LC.Content.plain ("Hello".toList), um⟩).count
        ("\n--- Answer ---\nHello".toList) = 1 ∧
    ∀ s : List Char, ("\n--- Reasoning Summary ---\n".toList ++ s)
        ∉ LC.print_response label ⟨LC.Content.plain ("Hello".toList), um⟩ := by
  have hc : LC.printContent (LC.Content.plain ("Hello".toList))
      = ["\n--- Answer ---\nHello".toList] := by decide
  have hout : LC.print_response label ⟨LC.Content.plain ("Hello".toList), um⟩
      = headerLines label ++ ["\n--- Answer ---\nHello".toList]
          ++ (match um with
              | some u => LC.usageLinesD ("\n--- Token Usage ---".toList) u
              | none => []) ++ [[]] := by
    show headerLines label
        ++ LC.printContent (LC.Content.plain ("Hello".toList))
        ++ (match um with
            | some u => LC.usageLinesD ("\n--- Token Usage ---".toList) u
            | none => []) ++ [[]]
      = headerLines label ++ ["\n--- Answer ---\nHello".toList]
          ++ (match um with
              | some u => LC.usageLinesD ("\n--- Token Usage ---".toList) u
              | none => []) ++ [[]]
    rw [hc]
  refine ⟨hout, ?_, ?_⟩
  · rw [hout, List.count_append, List.count_append, List.count_append]
    have h1 : (headerLines label).count ("\n--- Answer ---\nHello".toList) = 0 :=
      List.count_eq_zero.mpr (ans_hello_notMem_header label)
    have h2 : ([ "\n--- Answer ---\nHello".toList ] : List (List Char)).count
        ("\n--- Answer ---\nHello".toList) = 1 := by decide
    have h3 : (match um with
        | some u => LC.usageLinesD ("\n--- Token Usage ---".toList) u
        | none => ([] : List (List Char))).count
          ("\n--- Answer ---\nHello".toList) = 0 := by
      rcases um with _ | u
      · rfl
      · exact List.count_eq_zero.mpr (ans_hello_notMem_usage u)
    have h4 : ([[]] : List (List Char)).count
        ("\n--- Answer ---\nHello".toList) = 0 := by decide
    rw [h1, h2, h3, h4]
  · intro s h
    rw [hout] at h
    rcases List.mem_append.mp h with h | h
    · rcases List.mem_append.mp h with h | h
      · rcases List.mem_append.mp h with h | h
        · simp only [headerLines, List.mem_cons, List.not_mem_nil, or_false] at h
          rcases h with h | h | h
          · revert h
            apply getq_ne _ _ 1
            rw [List.getElem?_append_left (by decide)]
            decide
          · revert h
            apply getq_ne _ _ 0
            rw [List.getElem?_append_left (by decide),
              List.getElem?_append_left (by decide)]
            decide
          · revert h
            apply getq_ne _ _ 0
            rw [List.getElem?_append_left (by decide)]
            decide
        · rcases List.mem_singleton.mp h with h
          revert h
          apply getq_ne _ _ 5
          rw [List.getElem?_append_left (by decide)]
          decide
      · rcases um with _ | u
        · cases h
        · rcases mem_usageLinesD h with h | ⟨q, h⟩
          · revert h
            apply getq_ne _ _ 5
            rw [List.getElem?_append_left (by decide)]
            decide
          · revert h
            apply getq_ne _ _ 0
            rw [List.getElem?_append_left (by decide)]
            simp only [List.getElem?_cons_zero]
            decide
    · rcases List.mem_singleton.mp h with h
      revert h
      apply getq_ne _ _ 0
      rw [List.getElem?_append_left (by decide)]
      decide

/-- Instantiation of `c7_plain_string_answer` at an empty label and an
absent usage dict. -/
theorem c7_plain_string_answer_witness :
    LC.print_response [] ⟨LC.Content.plain ("Hello".toList), none⟩
      = headerLines [] ++ ["\n--- Answer ---\nHello".toList] ++ [] ++ [[]] ∧
    (LC.print_response [] ⟨LC.Content.plain ("Hello".toList), none⟩).count
        ("\n--- Answer ---\nHello".toList) = 1 :=
  ⟨(c7_plain_string_answer [] none).1, (c7_plain_string_answer [] none).2.1⟩
